import Mathlib

/-!
Verification of the health-check orchestration core of the DeFinetly
blockchain-monitoring repository, shallowly embedded from
`src/backend/monitoring/prometheus/exporter.h` (the
`BlockchainHealthCheck` implementation) and
`src/backend/monitoring/alerting/manager.cpp` (the `AlertManager`).

External collaborators (the node RPC client, the filesystem, the RPC
executor) are modelled as a record of the results their calls would
return in the current state; a call that would throw a C++ exception is
modelled as `Except.error msg`.  Machine `uint64_t` block heights are
modelled as `Nat` with subtraction performed modulo `2 ^ 64`, and C++
`double` metric values as `ℚ` (the claims under study concern the
wrap-around of the unsigned subtraction, not floating-point rounding).
-/

set_option autoImplicit false

namespace DeFinetly

/-- Width of a `uint64_t` block height. -/
def UINT64 : Nat := 2 ^ 64

/-- Configuration constant from `exporter.h`: `constexpr auto MAX_BLOCK_LAG = 50`. -/
def MAX_BLOCK_LAG : Nat := 50

/-- Interval (seconds) from `exporter.h`: `constexpr auto HEALTHCHECK_INTERVAL = 15s`. -/
def HEALTHCHECK_INTERVAL : Nat := 15

/-- Expected peer protocol version compared in `checkPeerConnections`.
The constant's value is defined outside the repository snapshot; the
claims under study do not depend on it. -/
def ETH_PROTOCOL_VERSION : Nat := 68

/-- `AlertSeverity` enum used by `Alert`. -/
inductive AlertSeverity
  | Info
  | Warning
  | Critical
deriving DecidableEq

/-- An `Alert` value: type tag, severity and numeric detail fields. -/
structure Alert where
  type : String
  severity : AlertSeverity
  details : List (String × ℚ)
deriving DecidableEq

/-- One entry of `client_.admin_peers()`. -/
structure PeerInfo where
  isActive : Bool
  protocolVersion : Nat
deriving DecidableEq

/-- Outcome of one RPC call through `client_.getExecutor()`:
the call succeeds, returns an RPC-level error payload
(`response["error"].isObject()`), or throws. -/
inductive RpcOutcome
  | ok
  | errorPayload
  | thrown
deriving DecidableEq

/-- `Config` loaded by `loadConfig`. -/
structure Config where
  min_peers : Int
  min_disk_gb : ℚ
  chaindata_path : String
  bootstrap_nodes : List String

/-- The state of the external collaborators during one check cycle: the
result each external call would produce.  `Except.error msg` models the
call throwing a C++ exception carrying `msg`. -/
structure ClientState where
  eth_blockNumber : Except String Nat
  network_block : Except String Nat
  admin_peers : Except String (List PeerInfo)
  rpc : String → RpcOutcome
  disk_free_bytes : Except String Nat

/-- Errors that can escape a probe: `HealthCheckError` from the sync
probe's catch block, or a raw `std::exception` from a collaborator call
that no probe catches. -/
inductive CheckError
  | healthCheck (msg : String)
  | external (msg : String)
deriving DecidableEq

/-- `uint64_t` subtraction `a - b` (wrap modulo `2 ^ 64`). -/
def usub64 (a b : Nat) : Nat :=
  (a % UINT64 + (UINT64 - b % UINT64)) % UINT64

/-- Result pair of `checkBlockSync`. -/
structure BlockSyncResult where
  localBlock : Nat
  networkBlock : Nat
deriving DecidableEq

/-- Alerts emitted by `checkBlockSync`: one `block_sync_lag` Warning
when the (uint64) lag exceeds `MAX_BLOCK_LAG`, none otherwise. -/
def blockSyncAlerts (localBlock networkBlock : Nat) : List Alert :=
  if usub64 networkBlock localBlock > MAX_BLOCK_LAG then
    [{ type := "block_sync_lag", severity := .Warning,
       details := [("local", (localBlock : ℚ)), ("network", (networkBlock : ℚ))] }]
  else []

/-- `BlockchainHealthCheck::checkBlockSync` (`exporter.h` lines 80-103):
fetches the local and network block heights; a failure of either fetch
is caught and rethrown as `HealthCheckError`; emits a `block_sync_lag`
alert when the lag exceeds `MAX_BLOCK_LAG`. -/
def checkBlockSync (c : ClientState) : Except CheckError (BlockSyncResult × List Alert) :=
  match c.eth_blockNumber with
  | .error e => .error (.healthCheck ("Block sync check failed: " ++ e))
  | .ok localBlock =>
    match c.network_block with
    | .error e => .error (.healthCheck ("Block sync check failed: " ++ e))
    | .ok networkBlock =>
      .ok ({ localBlock := localBlock, networkBlock := networkBlock },
           blockSyncAlerts localBlock networkBlock)

/-- `PeerStats` returned by `checkPeerConnections`. -/
structure PeerStats where
  total : Nat
  active : Nat
deriving DecidableEq

/-- The `count_if` in `checkPeerConnections`: peers that are active and
match the expected protocol version. -/
def activePeerCount (peers : List PeerInfo) : Nat :=
  (peers.filter (fun p => p.isActive && p.protocolVersion == ETH_PROTOCOL_VERSION)).length

/-- Alerts emitted by `checkPeerConnections`: one `low_peer_count`
Critical alert when the active count is below `min_peers`. -/
def peerAlerts (cfg : Config) (peers : List PeerInfo) : List Alert :=
  if (activePeerCount peers : Int) < cfg.min_peers then
    [{ type := "low_peer_count", severity := .Critical,
       details := [("count", (activePeerCount peers : ℚ))] }]
  else []

/-- `BlockchainHealthCheck::checkPeerConnections` (`exporter.h` lines
105-126).  The source has no try/catch here: a failure of
`client_.admin_peers()` propagates out of the probe. -/
def checkPeerConnections (c : ClientState) (cfg : Config) :
    Except CheckError (PeerStats × List Alert) :=
  match c.admin_peers with
  | .error e => .error (.external e)
  | .ok peers =>
    .ok ({ total := peers.length, active := activePeerCount peers },
         peerAlerts cfg peers)

/-- `RpcStatus` accumulated by `checkRpcAvailability`. -/
structure RpcStatus where
  error_count : Nat
deriving DecidableEq

/-- The fixed battery of RPC methods probed by `checkRpcAvailability`. -/
def rpcMethods : List String :=
  ["eth_blockNumber", "eth_getBalance", "net_version"]

/-- Whether one RPC call counts as failed in `checkRpcAvailability`:
either the call threw (the `catch (...)` branch) or it returned an
error payload. -/
def rpcFails (o : RpcOutcome) : Bool :=
  match o with
  | .ok => false
  | .errorPayload => true
  | .thrown => true

/-- `BlockchainHealthCheck::checkRpcAvailability` (`exporter.h` lines
128-160): every per-method failure is caught locally and counted; the
probe itself is total. -/
def checkRpcAvailability (c : ClientState) : RpcStatus :=
  { error_count := rpcMethods.countP (fun m => rpcFails (c.rpc m)) }

/-- `DiskSpaceStatus` returned by `checkDiskSpace`. -/
structure DiskSpaceStatus where
  free_gb : ℚ
  critical : Bool
deriving DecidableEq

/-- Free gigabytes computed by `checkDiskSpace`: `free / (1 << 30)`. -/
def diskFreeGb (freeBytes : Nat) : ℚ :=
  (freeBytes : ℚ) / (2 ^ 30 : ℚ)

/-- Alerts emitted by `checkDiskSpace`: one `low_disk_space` Critical
alert when the free space is below `min_disk_gb`. -/
def diskAlerts (cfg : Config) (freeBytes : Nat) : List Alert :=
  if diskFreeGb freeBytes < cfg.min_disk_gb then
    [{ type := "low_disk_space", severity := .Critical,
       details := [("free_gb", diskFreeGb freeBytes)] }]
  else []

/-- `BlockchainHealthCheck::checkDiskSpace` (`exporter.h` lines
162-182).  The source has no try/catch here: `fs::space` throwing a
`filesystem_error` propagates out of the probe. -/
def checkDiskSpace (c : ClientState) (cfg : Config) :
    Except CheckError (DiskSpaceStatus × List Alert) :=
  match c.disk_free_bytes with
  | .error e => .error (.external e)
  | .ok freeBytes =>
    .ok ({ free_gb := diskFreeGb freeBytes,
           critical := decide (diskFreeGb freeBytes < cfg.min_disk_gb) },
         diskAlerts cfg freeBytes)

/-- A `HealthReport`: timestamp, metric map (modelled as the
association list of the four keyed insertions, all keys distinct) and
overall verdict. -/
structure HealthReport where
  timestamp : Nat
  metrics : List (String × ℚ)
  overall_ok : Bool
deriving DecidableEq

/-- `BlockchainHealthCheck::runFullCheck` (`exporter.h` lines 52-78):
runs the four probes in order (sync, peers, rpc, disk), fills the
metric map, and aggregates
`overall_ok = !(localBlock == 0 || active < min_peers || disk critical)`.
An exception escaping a probe propagates out of `runFullCheck` (the
source has no try/catch here).  The second component collects the
alerts the probes emitted during the cycle. -/
def runFullCheck (c : ClientState) (cfg : Config) (now : Nat) :
    Except CheckError (HealthReport × List Alert) :=
  match checkBlockSync c with
  | .error e => .error e
  | .ok (sync, syncAs) =>
    match checkPeerConnections c cfg with
    | .error e => .error e
    | .ok (peerStats, peerAs) =>
      let rpcStatus := checkRpcAvailability c
      match checkDiskSpace c cfg with
      | .error e => .error e
      | .ok (diskStatus, diskAs) =>
        .ok ({ timestamp := now
             , metrics :=
                 [("block_diff", (usub64 sync.networkBlock sync.localBlock : ℚ)),
                  ("active_peers", (peerStats.active : ℚ)),
                  ("rpc_errors", (rpcStatus.error_count : ℚ)),
                  ("disk_free_gb", diskStatus.free_gb)]
             , overall_ok :=
                 !(decide (sync.localBlock = 0) ||
                   decide ((peerStats.active : Int) < cfg.min_peers) ||
                   diskStatus.critical) },
             syncAs ++ peerAs ++ diskAs)

/-- The three escalation actions of `handleCriticalStatus`. -/
inductive EAction
  | emitAlert
  | rotateLogs
  | addPeers
deriving DecidableEq

/-- How one run of `handleCriticalStatus` ended: all statements executed,
a `metrics.at` lookup threw (`std::out_of_range`), or the exception of
one of the actions escaped, skipping the remaining statements. -/
inductive HCOutcome
  | completed
  | missingKey (k : String)
  | aborted (a : EAction)
deriving DecidableEq

/-- Whether each external action invoked by `handleCriticalStatus`
succeeds in the current state (`false` models the call throwing). -/
structure ActionOutcomes where
  emit_ok : Bool
  rotate_ok : Bool
  addPeer_ok : Bool
deriving DecidableEq

/-- Observable effects of one run of `handleCriticalStatus`: the alerts
passed to `alerts_.emit`, the number of `rotateLogs()` calls, the number
of `admin_addPeer` calls, and how the run ended.  A call is counted as
made even when it then throws. -/
structure HCResult where
  emitted : List Alert
  rotateCalls : Nat
  addPeerCalls : Nat
  outcome : HCOutcome
deriving DecidableEq

/-- `BlockchainHealthCheck::handleCriticalStatus` (`exporter.h` lines
199-219): emits the composite `node_unhealthy` Critical alert built from
`metrics.at("block_diff")` and `metrics.at("rpc_errors")`, then rotates
logs when `metrics.at("disk_free_gb") < 5.0`, then re-adds bootstrap
peers when `metrics.at("active_peers") < 3`.  The statements run
sequentially with no exception isolation: an action that throws skips
every later statement, and a missing metrics key throws out of the
lookup itself. -/
def handleCriticalStatus (oc : ActionOutcomes) (r : HealthReport) : HCResult :=
  match r.metrics.lookup "block_diff" with
  | none => { emitted := [], rotateCalls := 0, addPeerCalls := 0,
              outcome := .missingKey "block_diff" }
  | some bd =>
    match r.metrics.lookup "rpc_errors" with
    | none => { emitted := [], rotateCalls := 0, addPeerCalls := 0,
                outcome := .missingKey "rpc_errors" }
    | some re =>
      let alert : Alert :=
        { type := "node_unhealthy", severity := .Critical,
          details := [("block_diff", bd), ("rpc_errors", re)] }
      if oc.emit_ok = false then
        { emitted := [alert], rotateCalls := 0, addPeerCalls := 0,
          outcome := .aborted .emitAlert }
      else
        match r.metrics.lookup "disk_free_gb" with
        | none => { emitted := [alert], rotateCalls := 0, addPeerCalls := 0,
                    outcome := .missingKey "disk_free_gb" }
        | some dfg =>
          if dfg < 5 ∧ oc.rotate_ok = false then
            { emitted := [alert], rotateCalls := 1, addPeerCalls := 0,
              outcome := .aborted .rotateLogs }
          else
            match r.metrics.lookup "active_peers" with
            | none => { emitted := [alert],
                        rotateCalls := if dfg < 5 then 1 else 0,
                        addPeerCalls := 0,
                        outcome := .missingKey "active_peers" }
            | some ap =>
              if ap < 3 ∧ oc.addPeer_ok = false then
                { emitted := [alert],
                  rotateCalls := if dfg < 5 then 1 else 0,
                  addPeerCalls := 1,
                  outcome := .aborted .addPeers }
              else
                { emitted := [alert],
                  rotateCalls := if dfg < 5 then 1 else 0,
                  addPeerCalls := if ap < 3 then 1 else 0,
                  outcome := .completed }

/-- How the background worker of `startBackgroundChecker` left its loop:
it observed the shutdown flag set and exited normally, an exception
escaped the thread function (in C++ this calls `std::terminate`), or the
modelled schedule ran out with the loop still live. -/
inductive WorkerExit
  | cleanExit
  | crashed (e : CheckError)
  | running
deriving DecidableEq

/-- `BlockchainHealthCheck::startBackgroundChecker` (`exporter.h` lines
184-197), the body of the checker thread:
`while (!shutdown_flag_) { report = runFullCheck(); ...; sleep }`.
The schedule supplies, for each loop iteration, the shutdown flag value
observed at the loop condition and the collaborator state for that
cycle.  The loop body has no try/catch: an error from `runFullCheck`
escapes the thread function and the worker produces no further cycles.
Returns the reports of the completed cycles and how the loop ended. -/
def workerRun (cfg : Config) : List (Bool × ClientState) → Nat → List HealthReport × WorkerExit
  | [], _ => ([], .running)
  | (flag, env) :: rest, now =>
    if flag then ([], .cleanExit)
    else
      match runFullCheck env cfg now with
      | .error e => ([], .crashed e)
      | .ok (r, _) =>
        let next := workerRun cfg rest (now + HEALTHCHECK_INTERVAL)
        (r :: next.1, next.2)

/-- Events in the shutdown protocol of the background checker. -/
inductive LifecycleEvent
  | cycleStart (i : Nat)
  | cycleEnd (i : Nat)
  | flagSet
  | workerExited
  | stopReturned
deriving DecidableEq

/-- Modelled from the spec: the stop operation of the health checker is
declared in `blockchain_healthcheck.h`, which is absent from the
repository snapshot (only the loop in `startBackgroundChecker` is in
`src/`); per the spec it sets the cooperative shutdown flag and joins
the checker thread before returning.  `inflight` is the index of the
cycle during which the flag is set: that cycle completes, the loop
condition then observes the flag and the worker exits, and only after
the worker has exited does the stop operation return (the join). -/
def stopAndJoinTrace (inflight : Nat) : List LifecycleEvent :=
  ((List.range inflight).flatMap fun i => [LifecycleEvent.cycleStart i, LifecycleEvent.cycleEnd i])
    ++ [LifecycleEvent.cycleStart inflight, LifecycleEvent.flagSet,
        LifecycleEvent.cycleEnd inflight, LifecycleEvent.workerExited,
        LifecycleEvent.stopReturned]

/-- The `AlertManager` registration table
(`src/backend/monitoring/alerting/manager.cpp`): the chronological log
of `subscribe(alert_type, handler)` calls.  `handlers[ty]` in the C++
`unordered_map<string, vector<AlertHandler>>` is recovered as the
subsequence of entries whose type is `ty`, in subscription
(`push_back`) order; handlers are identified by `Nat` ids. -/
def subscribe (tbl : List (String × Nat)) (alert_type : String) (handler : Nat) :
    List (String × Nat) :=
  tbl ++ [(alert_type, handler)]

/-- The handler vector `handlers[ty]` of the `AlertManager`, in
subscription order. -/
def handlersFor (tbl : List (String × Nat)) (ty : String) : List Nat :=
  (tbl.filter fun p => p.1 == ty).map Prod.snd

/-- Alert delivery of the `AlertManager` (`manager.cpp` lines 21-23):
`for (const auto& handler : handlers[alert["type"]]) handler(alert);` —
each handler registered for the alert's type is invoked once, in order,
with the alert.  Returns the list of invocations performed. -/
def emit (tbl : List (String × Nat)) (a : Alert) : List (Nat × Alert) :=
  (handlersFor tbl a.type).map fun h => (h, a)

/-! ### Concrete states used as witnesses and counterexamples -/

/-- A sample configuration (shape of `loadConfig`'s result). -/
def cfg0 : Config :=
  { min_peers := 3, min_disk_gb := 10,
    chaindata_path := "/data/chaindata", bootstrap_nodes := ["boot-node-1"] }

/-- A sample peer list: two active matching peers, one inactive, one on
an unexpected protocol version. -/
def peers0 : List PeerInfo :=
  [{ isActive := true, protocolVersion := 68 },
   { isActive := true, protocolVersion := 68 },
   { isActive := false, protocolVersion := 68 },
   { isActive := true, protocolVersion := 7 }]

/-- A healthy collaborator state: every call succeeds. -/
def goodClient : ClientState :=
  { eth_blockNumber := .ok 100, network_block := .ok 110,
    admin_peers := .ok (peers0 ++ peers0),
    rpc := fun _ => .ok,
    disk_free_bytes := .ok (100 * 2 ^ 30) }

/-- A state whose local block fetch throws (the sync probe then raises
`HealthCheckError`). -/
def badSyncClient : ClientState :=
  { goodClient with eth_blockNumber := .error "connection refused" }

/-- A state whose `admin_peers()` call throws. -/
def badPeerClient : ClientState :=
  { goodClient with admin_peers := .error "peers unavailable" }

/-- A state in which every RPC-executor call throws. -/
def rpcDownClient : ClientState :=
  { goodClient with rpc := fun _ => .thrown }

/-- A state in which the local node is ahead of the reference head by
the maximal possible margin: local `2 ^ 64 - 1`, network `0`. -/
def aheadClient : ClientState :=
  { goodClient with
    eth_blockNumber := .ok (2 ^ 64 - 1), network_block := .ok 0 }

/-- A state lagging 100 blocks behind the network head. -/
def laggingClient : ClientState :=
  { goodClient with
    eth_blockNumber := .ok 1000, network_block := .ok 1100 }

/-- A state in which the local node is one block ahead of the
reference head. -/
def slightlyAheadClient : ClientState :=
  { goodClient with eth_blockNumber := .ok 101, network_block := .ok 100 }

/-- A failing report whose disk metric sits below the 5 GB low-water
mark of `handleCriticalStatus`. -/
def reportDisk3 : HealthReport :=
  { timestamp := 0
  , metrics := [("block_diff", 0), ("active_peers", 10), ("rpc_errors", 0), ("disk_free_gb", 3)]
  , overall_ok := false }

/-! ### Shared evaluation lemmas -/

lemma checkBlockSync_ok (c : ClientState) (lb nb : Nat)
    (hb : c.eth_blockNumber = Except.ok lb) (hn : c.network_block = Except.ok nb) :
    checkBlockSync c = .ok ({ localBlock := lb, networkBlock := nb }, blockSyncAlerts lb nb) := by
  unfold checkBlockSync
  rw [hb, hn]

lemma checkPeerConnections_ok (c : ClientState) (cfg : Config) (ps : List PeerInfo)
    (hp : c.admin_peers = Except.ok ps) :
    checkPeerConnections c cfg =
      .ok ({ total := ps.length, active := activePeerCount ps }, peerAlerts cfg ps) := by
  unfold checkPeerConnections
  rw [hp]

lemma checkDiskSpace_ok (c : ClientState) (cfg : Config) (fb : Nat)
    (hd : c.disk_free_bytes = Except.ok fb) :
    checkDiskSpace c cfg =
      .ok ({ free_gb := diskFreeGb fb,
             critical := decide (diskFreeGb fb < cfg.min_disk_gb) }, diskAlerts cfg fb) := by
  unfold checkDiskSpace
  rw [hd]

/-- Evaluation of `runFullCheck` when all collaborator calls succeed:
the cycle completes with the explicit report and the concatenation of
the probes' alerts. -/
lemma runFullCheck_ok_eq (c : ClientState) (cfg : Config) (now lb nb : Nat)
    (ps : List PeerInfo) (fb : Nat)
    (hb : c.eth_blockNumber = Except.ok lb) (hn : c.network_block = Except.ok nb)
    (hp : c.admin_peers = Except.ok ps) (hd : c.disk_free_bytes = Except.ok fb) :
    runFullCheck c cfg now =
      .ok ({ timestamp := now
           , metrics :=
               [("block_diff", (usub64 nb lb : ℚ)),
                ("active_peers", (activePeerCount ps : ℚ)),
                ("rpc_errors", ((checkRpcAvailability c).error_count : ℚ)),
                ("disk_free_gb", diskFreeGb fb)]
           , overall_ok :=
               !(decide (lb = 0) ||
                 decide ((activePeerCount ps : Int) < cfg.min_peers) ||
                 decide (diskFreeGb fb < cfg.min_disk_gb)) },
           blockSyncAlerts lb nb ++ peerAlerts cfg ps ++ diskAlerts cfg fb) := by
  unfold runFullCheck
  rw [checkBlockSync_ok c lb nb hb hn, checkPeerConnections_ok c cfg ps hp,
      checkDiskSpace_ok c cfg fb hd]

/-- The four metric lookups of `handleCriticalStatus` all succeed on a
report carrying the four keys, so its missing-key branch is not
reached. -/
lemma handleCriticalStatus_not_missing (oc : ActionOutcomes) (r : HealthReport)
    (bd re dfg ap : ℚ)
    (h1 : r.metrics.lookup "block_diff" = some bd)
    (h2 : r.metrics.lookup "rpc_errors" = some re)
    (h3 : r.metrics.lookup "disk_free_gb" = some dfg)
    (h4 : r.metrics.lookup "active_peers" = some ap) (k : String) :
    (handleCriticalStatus oc r).outcome ≠ HCOutcome.missingKey k := by
  unfold handleCriticalStatus
  rw [h1, h2, h3, h4]
  repeat' split
  all_goals simp_all

/-- Specialisation of the previous lemma to a report literal carrying
the four keys of `runFullCheck`'s metric map. -/
lemma handleCriticalStatus_not_missing_report (oc : ActionOutcomes) (now : Nat)
    (v1 v2 v3 v4 : ℚ) (ok : Bool) (k : String) :
    (handleCriticalStatus oc
      { timestamp := now
      , metrics := [("block_diff", v1), ("active_peers", v2), ("rpc_errors", v3),
                    ("disk_free_gb", v4)]
      , overall_ok := ok }).outcome ≠ HCOutcome.missingKey k :=
  handleCriticalStatus_not_missing oc
    { timestamp := now
    , metrics := [("block_diff", v1), ("active_peers", v2), ("rpc_errors", v3),
                  ("disk_free_gb", v4)]
    , overall_ok := ok } v1 v3 v4 v2 rfl rfl rfl rfl k

/-! ### Claim theorems -/

/-- C1: for every `HealthReport` returned by `runFullCheck`,
`overall_ok == false` iff the local block number is `0`, the active
peer count is below `min_peers`, or the disk probe reported critical
(`free_gb < min_disk_gb`); and the RPC error count has no influence on
`overall_ok` (replacing the RPC collaborator arbitrarily leaves it
unchanged). -/
theorem c1_overall_ok_iff (c : ClientState) (cfg : Config) (now lb nb : Nat)
    (ps : List PeerInfo) (fb : Nat)
    (hb : c.eth_blockNumber = Except.ok lb) (hn : c.network_block = Except.ok nb)
    (hp : c.admin_peers = Except.ok ps) (hd : c.disk_free_bytes = Except.ok fb) :
    ∃ r as, runFullCheck c cfg now = .ok (r, as) ∧
      (r.overall_ok = false ↔
        (lb = 0 ∨ (activePeerCount ps : Int) < cfg.min_peers ∨
          diskFreeGb fb < cfg.min_disk_gb)) ∧
      ∀ rpc2 : String → RpcOutcome, ∃ r2 as2,
        runFullCheck { c with rpc := rpc2 } cfg now = .ok (r2, as2) ∧
          r2.overall_ok = r.overall_ok := by
  refine ⟨_, _, runFullCheck_ok_eq c cfg now lb nb ps fb hb hn hp hd, ?_, ?_⟩
  · simp only [Bool.not_eq_false', Bool.or_eq_true, decide_eq_true_eq]
    tauto
  · intro rpc2
    exact ⟨_, _, runFullCheck_ok_eq { c with rpc := rpc2 } cfg now lb nb ps fb hb hn hp hd, rfl⟩

/-- C1 witness: the theorem applied to the healthy concrete state. -/
theorem c1_overall_ok_iff_witness :
    ∃ r as, runFullCheck goodClient cfg0 0 = .ok (r, as) ∧
      (r.overall_ok = false ↔
        ((100 : Nat) = 0 ∨ (activePeerCount (peers0 ++ peers0) : Int) < cfg0.min_peers ∨
          diskFreeGb (100 * 2 ^ 30) < cfg0.min_disk_gb)) ∧
      ∀ rpc2 : String → RpcOutcome, ∃ r2 as2,
        runFullCheck { goodClient with rpc := rpc2 } cfg0 0 = .ok (r2, as2) ∧
          r2.overall_ok = r.overall_ok :=
  c1_overall_ok_iff goodClient cfg0 0 100 110 (peers0 ++ peers0) (100 * 2 ^ 30)
    rfl rfl rfl rfl

/-- C8: with the collaborator state fixed, two runs of `runFullCheck`
yield reports with identical metrics and identical `overall_ok`, each
carrying its own timestamp. -/
theorem c8_runFullCheck_idempotent (c : ClientState) (cfg : Config) (t1 t2 lb nb : Nat)
    (ps : List PeerInfo) (fb : Nat)
    (hb : c.eth_blockNumber = Except.ok lb) (hn : c.network_block = Except.ok nb)
    (hp : c.admin_peers = Except.ok ps) (hd : c.disk_free_bytes = Except.ok fb) :
    ∃ r1 a1 r2 a2,
      runFullCheck c cfg t1 = .ok (r1, a1) ∧ runFullCheck c cfg t2 = .ok (r2, a2) ∧
      r1.metrics = r2.metrics ∧ r1.overall_ok = r2.overall_ok ∧
      r1.timestamp = t1 ∧ r2.timestamp = t2 :=
  ⟨_, _, _, _, runFullCheck_ok_eq c cfg t1 lb nb ps fb hb hn hp hd,
    runFullCheck_ok_eq c cfg t2 lb nb ps fb hb hn hp hd, rfl, rfl, rfl, rfl⟩

/-- C8 witness: two runs at timestamps 0 and 15 on the healthy state. -/
theorem c8_runFullCheck_idempotent_witness :
    ∃ r1 a1 r2 a2,
      runFullCheck goodClient cfg0 0 = .ok (r1, a1) ∧
      runFullCheck goodClient cfg0 15 = .ok (r2, a2) ∧
      r1.metrics = r2.metrics ∧ r1.overall_ok = r2.overall_ok ∧
      r1.timestamp = 0 ∧ r2.timestamp = 15 :=
  c8_runFullCheck_idempotent goodClient cfg0 0 15 100 110 (peers0 ++ peers0)
    (100 * 2 ^ 30) rfl rfl rfl rfl

/-- C9: every report of `runFullCheck` carries exactly the four metric
keys `block_diff`, `active_peers`, `rpc_errors`, `disk_free_gb`; hence
every keyed lookup of `handleCriticalStatus` succeeds and its
missing-key branch is unreachable. -/
theorem c9_metrics_keys_complete (c : ClientState) (cfg : Config) (now lb nb : Nat)
    (ps : List PeerInfo) (fb : Nat)
    (hb : c.eth_blockNumber = Except.ok lb) (hn : c.network_block = Except.ok nb)
    (hp : c.admin_peers = Except.ok ps) (hd : c.disk_free_bytes = Except.ok fb) :
    ∃ r as, runFullCheck c cfg now = .ok (r, as) ∧
      r.metrics.map Prod.fst = ["block_diff", "active_peers", "rpc_errors", "disk_free_gb"] ∧
      (r.metrics.lookup "block_diff").isSome = true ∧
      (r.metrics.lookup "rpc_errors").isSome = true ∧
      (r.metrics.lookup "disk_free_gb").isSome = true ∧
      (r.metrics.lookup "active_peers").isSome = true ∧
      ∀ (oc : ActionOutcomes) (k : String),
        (handleCriticalStatus oc r).outcome ≠ HCOutcome.missingKey k := by
  refine ⟨_, _, runFullCheck_ok_eq c cfg now lb nb ps fb hb hn hp hd,
    rfl, rfl, rfl, rfl, rfl, ?_⟩
  intro oc k
  exact handleCriticalStatus_not_missing_report oc now _ _ _ _ _ k

/-- C9 witness: the theorem applied to the healthy concrete state. -/
theorem c9_metrics_keys_complete_witness :
    ∃ r as, runFullCheck goodClient cfg0 0 = .ok (r, as) ∧
      r.metrics.map Prod.fst = ["block_diff", "active_peers", "rpc_errors", "disk_free_gb"] ∧
      (r.metrics.lookup "block_diff").isSome = true ∧
      (r.metrics.lookup "rpc_errors").isSome = true ∧
      (r.metrics.lookup "disk_free_gb").isSome = true ∧
      (r.metrics.lookup "active_peers").isSome = true ∧
      ∀ (oc : ActionOutcomes) (k : String),
        (handleCriticalStatus oc r).outcome ≠ HCOutcome.missingKey k :=
  c9_metrics_keys_complete goodClient cfg0 0 100 110 (peers0 ++ peers0) (100 * 2 ^ 30)
    rfl rfl rfl rfl

/-- C4: given two successful block fetches, the sync probe returns the
observed pair and emits exactly one `block_sync_lag` Warning alert with
`local` and `network` equal to the observed heights when the (uint64)
lag exceeds `MAX_BLOCK_LAG`, and no alert when the lag is at most
`MAX_BLOCK_LAG`. -/
theorem c4_block_sync_lag_alert (c : ClientState) (lb nb : Nat)
    (hb : c.eth_blockNumber = Except.ok lb) (hn : c.network_block = Except.ok nb) :
    ∃ res alerts, checkBlockSync c = .ok (res, alerts) ∧
      res.localBlock = lb ∧ res.networkBlock = nb ∧
      (usub64 nb lb > MAX_BLOCK_LAG →
        alerts = [{ type := "block_sync_lag", severity := .Warning,
                    details := [("local", (lb : ℚ)), ("network", (nb : ℚ))] }]) ∧
      (usub64 nb lb ≤ MAX_BLOCK_LAG → alerts = []) := by
  refine ⟨_, _, checkBlockSync_ok c lb nb hb hn, rfl, rfl, ?_, ?_⟩
  · intro h
    unfold blockSyncAlerts
    rw [if_pos h]
  · intro h
    unfold blockSyncAlerts
    rw [if_neg (Nat.not_lt.mpr h)]

/-- C4 witness: a node 100 blocks behind emits the lag alert. -/
theorem c4_block_sync_lag_alert_witness :
    (∃ res alerts, checkBlockSync laggingClient = .ok (res, alerts) ∧
      res.localBlock = 1000 ∧ res.networkBlock = 1100 ∧
      (usub64 1100 1000 > MAX_BLOCK_LAG →
        alerts = [{ type := "block_sync_lag", severity := .Warning,
                    details := [("local", (1000 : ℚ)), ("network", (1100 : ℚ))] }]) ∧
      (usub64 1100 1000 ≤ MAX_BLOCK_LAG → alerts = [])) ∧
    usub64 1100 1000 > MAX_BLOCK_LAG :=
  ⟨c4_block_sync_lag_alert laggingClient 1000 1100 rfl rfl, by decide⟩

lemma handlersFor_subscribe (tbl : List (String × Nat)) (t : String) (h : Nat)
    (ty : String) :
    handlersFor (subscribe tbl t h) ty =
      handlersFor tbl ty ++ if t == ty then [h] else [] := by
  unfold handlersFor subscribe
  rw [List.filter_append]
  rcases hq : t == ty with _ | _ <;> simp [List.filter_cons, hq]

/-- C5: delivery invokes exactly the handlers registered for the
alert's type, once each, in subscription order: the invocation list
tracks the registration table; appending a subscription of matching
type appends exactly one invocation; subscribing two handlers to one
type and emitting one alert of that type invokes both exactly once in
subscription order; an alert type with no registration yields zero
invocations. -/
theorem c5_emit_subscription_order (tbl : List (String × Nat)) (ty : String)
    (h1 h2 : Nat) (a b : Alert)
    (ha : a.type = ty) (hne : h1 ≠ h2)
    (hfresh : handlersFor tbl ty = []) (hb : handlersFor tbl b.type = []) :
    emit (subscribe (subscribe tbl ty h1) ty h2) a = [(h1, a), (h2, a)] ∧
    (emit (subscribe (subscribe tbl ty h1) ty h2) a).count (h1, a) = 1 ∧
    (emit (subscribe (subscribe tbl ty h1) ty h2) a).count (h2, a) = 1 ∧
    emit tbl b = [] ∧
    (∀ (tbl2 : List (String × Nat)) (x : Alert),
       (emit tbl2 x).map Prod.fst = handlersFor tbl2 x.type) ∧
    (∀ (tbl2 : List (String × Nat)) (t : String) (h : Nat) (x : Alert), x.type = t →
       emit (subscribe tbl2 t h) x = emit tbl2 x ++ [(h, x)]) := by
  have key : emit (subscribe (subscribe tbl ty h1) ty h2) a = [(h1, a), (h2, a)] := by
    unfold emit
    rw [ha, handlersFor_subscribe, handlersFor_subscribe, hfresh]
    simp
  refine ⟨key, ?_, ?_, ?_, ?_, ?_⟩
  · rw [key]
    simp [List.count_cons, hne, Ne.symm hne]
  · rw [key]
    simp [List.count_cons, hne, Ne.symm hne]
  · unfold emit
    rw [hb]
    rfl
  · intro tbl2 x
    unfold emit
    rw [List.map_map, show (Prod.fst ∘ fun h : Nat => (h, x)) = id from rfl,
      List.map_id]
  · intro tbl2 t h x hx
    unfold emit
    rw [hx, handlersFor_subscribe]
    simp

/-- C5 witness: two handlers on `node_unhealthy` over the empty table,
one alert of that type and one of an unregistered type. -/
theorem c5_emit_subscription_order_witness :
    emit (subscribe (subscribe [] "node_unhealthy" 0) "node_unhealthy" 1)
        { type := "node_unhealthy", severity := .Critical, details := [] } =
      [(0, { type := "node_unhealthy", severity := .Critical, details := [] }),
       (1, { type := "node_unhealthy", severity := .Critical, details := [] })] ∧
    (emit (subscribe (subscribe [] "node_unhealthy" 0) "node_unhealthy" 1)
        { type := "node_unhealthy", severity := .Critical, details := [] }).count
        (0, { type := "node_unhealthy", severity := .Critical, details := [] }) = 1 ∧
    (emit (subscribe (subscribe [] "node_unhealthy" 0) "node_unhealthy" 1)
        { type := "node_unhealthy", severity := .Critical, details := [] }).count
        (1, { type := "node_unhealthy", severity := .Critical, details := [] }) = 1 ∧
    emit [] { type := "low_disk_space", severity := .Critical, details := [] } = [] ∧
    (∀ (tbl2 : List (String × Nat)) (x : Alert),
       (emit tbl2 x).map Prod.fst = handlersFor tbl2 x.type) ∧
    (∀ (tbl2 : List (String × Nat)) (t : String) (h : Nat) (x : Alert), x.type = t →
       emit (subscribe tbl2 t h) x = emit tbl2 x ++ [(h, x)]) :=
  c5_emit_subscription_order [] "node_unhealthy" 0 1
    { type := "node_unhealthy", severity := .Critical, details := [] }
    { type := "low_disk_space", severity := .Critical, details := [] }
    rfl (by decide) rfl rfl

/-- C6 counterexample: a failing report with `disk_free_gb == 3.0`
passed to `handleCriticalStatus` while the composite alert emission
fails triggers zero log rotations, not one — the actions are not
independent. -/
theorem c6_counterexample :
    reportDisk3.overall_ok = false ∧
    reportDisk3.metrics.lookup "disk_free_gb" = some 3 ∧
    (handleCriticalStatus { emit_ok := false, rotate_ok := true, addPeer_ok := true }
        reportDisk3).rotateCalls = 0 := by
  refine ⟨rfl, rfl, by decide⟩

/-- C6 (amended): each escalation action whose condition holds is
performed provided no earlier action raised.  When every action
succeeds, the composite `node_unhealthy` alert is emitted, logs rotate
exactly once iff `disk_free_gb < 5` (so once at `3.0`, never at
`10.0`), and bootstrap peers are re-added iff `active_peers < 3`; when
the alert emission raises, neither later action runs. -/
theorem c6_escalation_actions (r : HealthReport) (bd re dfg ap : ℚ)
    (_hok : r.overall_ok = false)
    (h1 : r.metrics.lookup "block_diff" = some bd)
    (h2 : r.metrics.lookup "rpc_errors" = some re)
    (h3 : r.metrics.lookup "disk_free_gb" = some dfg)
    (h4 : r.metrics.lookup "active_peers" = some ap)
    (oc : ActionOutcomes) :
    (oc.emit_ok = true → oc.rotate_ok = true → oc.addPeer_ok = true →
      handleCriticalStatus oc r =
        { emitted := [{ type := "node_unhealthy", severity := .Critical,
                        details := [("block_diff", bd), ("rpc_errors", re)] }]
        , rotateCalls := if dfg < 5 then 1 else 0
        , addPeerCalls := if ap < 3 then 1 else 0
        , outcome := .completed }) ∧
    (dfg = 3 → oc.emit_ok = true → oc.rotate_ok = true → oc.addPeer_ok = true →
      (handleCriticalStatus oc r).rotateCalls = 1) ∧
    (dfg = 10 → oc.emit_ok = true →
      (handleCriticalStatus oc r).rotateCalls = 0) ∧
    (oc.emit_ok = false →
      (handleCriticalStatus oc r).rotateCalls = 0 ∧
      (handleCriticalStatus oc r).addPeerCalls = 0) := by
  have base : ∀ (eo : oc.emit_ok = true) (ro : oc.rotate_ok = true)
      (po : oc.addPeer_ok = true),
      handleCriticalStatus oc r =
        { emitted := [{ type := "node_unhealthy", severity := .Critical,
                        details := [("block_diff", bd), ("rpc_errors", re)] }]
        , rotateCalls := if dfg < 5 then 1 else 0
        , addPeerCalls := if ap < 3 then 1 else 0
        , outcome := .completed } := by
    intro eo ro po
    unfold handleCriticalStatus
    rw [h1, h2, h3, h4]
    simp [eo, ro, po]
  refine ⟨base, ?_, ?_, ?_⟩
  · intro hd3 eo ro po
    rw [base eo ro po, hd3]
    norm_num
  · intro hd10 eo
    subst hd10
    unfold handleCriticalStatus
    rw [h1, h2, h3, h4]
    simp [eo]
    split_ifs <;> simp_all <;> norm_num at *
  · intro eo
    unfold handleCriticalStatus
    rw [h1, h2]
    simp [eo]

/-- C6 witness: the amended behavior at the concrete failing report
with `disk_free_gb == 3.0` and all actions succeeding. -/
theorem c6_escalation_actions_witness :
    (ActionOutcomes.emit_ok ⟨true, true, true⟩ = true →
      ActionOutcomes.rotate_ok ⟨true, true, true⟩ = true →
      ActionOutcomes.addPeer_ok ⟨true, true, true⟩ = true →
      handleCriticalStatus ⟨true, true, true⟩ reportDisk3 =
        { emitted := [{ type := "node_unhealthy", severity := .Critical,
                        details := [("block_diff", 0), ("rpc_errors", 0)] }]
        , rotateCalls := if (3 : ℚ) < 5 then 1 else 0
        , addPeerCalls := if (10 : ℚ) < 3 then 1 else 0
        , outcome := .completed }) ∧
    ((3 : ℚ) = 3 → ActionOutcomes.emit_ok ⟨true, true, true⟩ = true →
      ActionOutcomes.rotate_ok ⟨true, true, true⟩ = true →
      ActionOutcomes.addPeer_ok ⟨true, true, true⟩ = true →
      (handleCriticalStatus ⟨true, true, true⟩ reportDisk3).rotateCalls = 1) ∧
    ((3 : ℚ) = 10 → ActionOutcomes.emit_ok ⟨true, true, true⟩ = true →
      (handleCriticalStatus ⟨true, true, true⟩ reportDisk3).rotateCalls = 0) ∧
    (ActionOutcomes.emit_ok ⟨true, true, true⟩ = false →
      (handleCriticalStatus ⟨true, true, true⟩ reportDisk3).rotateCalls = 0 ∧
      (handleCriticalStatus ⟨true, true, true⟩ reportDisk3).addPeerCalls = 0) :=
  c6_escalation_actions reportDisk3 0 0 3 10 rfl rfl rfl rfl rfl ⟨true, true, true⟩

/-- C2 (code bug): `startBackgroundChecker`'s loop body has no
try/catch, so the `HealthCheckError` raised when the first cycle's
block fetch fails escapes the thread function and the worker loop ends:
the second scheduled cycle — which would have succeeded — is never run.
The claim says the error is caught at the cycle boundary and the loop
continues. -/
theorem c2_failed_cycle_terminates_worker :
    runFullCheck badSyncClient cfg0 0 =
      .error (.healthCheck "Block sync check failed: connection refused") ∧
    workerRun cfg0 [(false, badSyncClient), (false, goodClient)] 0 =
      ([], .crashed (.healthCheck "Block sync check failed: connection refused")) ∧
    (∃ r as, runFullCheck goodClient cfg0 15 = .ok (r, as)) :=
  ⟨rfl, rfl, _, _, rfl⟩

lemma rpcFails_of_ne (o : RpcOutcome) (h : o ≠ .ok) : rpcFails o = true := by
  cases o <;> simp_all [rpcFails]

lemma rpc_error_count_eq_three (c : ClientState)
    (f1 : rpcFails (c.rpc "eth_blockNumber") = true)
    (f2 : rpcFails (c.rpc "eth_getBalance") = true)
    (f3 : rpcFails (c.rpc "net_version") = true) :
    (checkRpcAvailability c).error_count = 3 := by
  unfold checkRpcAvailability rpcMethods
  simp [List.countP_cons, f1, f2, f3]

/-- C3 (amended): the RPC probe never raises — all three configured
methods failing still yields a completed cycle whose report carries
`rpc_errors == 3` — but the peer-connectivity and disk-space probes
have no local handler: a collaborator failure propagates out of their
own call (and hence aborts the cycle). -/
theorem c3_rpc_probe_absorbs_failures (c : ClientState) (cfg : Config)
    (now lb nb : Nat) (ps : List PeerInfo) (fb : Nat)
    (hb : c.eth_blockNumber = Except.ok lb) (hn : c.network_block = Except.ok nb)
    (hp : c.admin_peers = Except.ok ps) (hd : c.disk_free_bytes = Except.ok fb)
    (f1 : c.rpc "eth_blockNumber" ≠ .ok) (f2 : c.rpc "eth_getBalance" ≠ .ok)
    (f3 : c.rpc "net_version" ≠ .ok) :
    (checkRpcAvailability c).error_count = 3 ∧
    (∃ r as, runFullCheck c cfg now = .ok (r, as) ∧
       r.metrics.lookup "rpc_errors" = some 3) ∧
    (∀ (c2 : ClientState) (e : String), c2.admin_peers = .error e →
       checkPeerConnections c2 cfg = .error (.external e)) ∧
    (∀ (c2 : ClientState) (e : String), c2.disk_free_bytes = .error e →
       checkDiskSpace c2 cfg = .error (.external e)) := by
  have hcount := rpc_error_count_eq_three c
    (rpcFails_of_ne _ f1) (rpcFails_of_ne _ f2) (rpcFails_of_ne _ f3)
  refine ⟨hcount, ⟨_, _, runFullCheck_ok_eq c cfg now lb nb ps fb hb hn hp hd, ?_⟩,
    ?_, ?_⟩
  · rw [show (List.lookup "rpc_errors"
        [("block_diff", (usub64 nb lb : ℚ)),
         ("active_peers", (activePeerCount ps : ℚ)),
         ("rpc_errors", ((checkRpcAvailability c).error_count : ℚ)),
         ("disk_free_gb", diskFreeGb fb)]) =
        some ((checkRpcAvailability c).error_count : ℚ) from rfl, hcount]
    norm_num
  · intro c2 e he
    unfold checkPeerConnections
    rw [he]
  · intro c2 e he
    unfold checkDiskSpace
    rw [he]

/-- C3 witness: the amended theorem at a state where every RPC-executor
call throws and the other collaborators are healthy. -/
theorem c3_rpc_probe_absorbs_failures_witness :
    (checkRpcAvailability rpcDownClient).error_count = 3 ∧
    (∃ r as, runFullCheck rpcDownClient cfg0 0 = .ok (r, as) ∧
       r.metrics.lookup "rpc_errors" = some 3) ∧
    (∀ (c2 : ClientState) (e : String), c2.admin_peers = .error e →
       checkPeerConnections c2 cfg0 = .error (.external e)) ∧
    (∀ (c2 : ClientState) (e : String), c2.disk_free_bytes = .error e →
       checkDiskSpace c2 cfg0 = .error (.external e)) :=
  c3_rpc_probe_absorbs_failures rpcDownClient cfg0 0 100 110 (peers0 ++ peers0)
    (100 * 2 ^ 30) rfl rfl rfl rfl (by decide) (by decide) (by decide)

/-- C3 counterexample: a state whose `admin_peers()` call throws makes
the peer probe itself raise and the cycle abort with no report, against
the claim that peer/RPC/disk failures are always absorbed into metric
values. -/
theorem c3_counterexample :
    checkPeerConnections badPeerClient cfg0 = .error (.external "peers unavailable") ∧
    runFullCheck badPeerClient cfg0 0 = .error (.external "peers unavailable") :=
  ⟨rfl, rfl⟩

/-- The worker loop checks the shutdown flag at each iteration
boundary: once the flag reads `true`, it exits cleanly having run
exactly the cycles scheduled before the flag was observed set. -/
lemma workerRun_shutdown (cfg : Config) (c : ClientState) (lb nb : Nat)
    (ps : List PeerInfo) (fb : Nat)
    (hb : c.eth_blockNumber = Except.ok lb) (hn : c.network_block = Except.ok nb)
    (hp : c.admin_peers = Except.ok ps) (hd : c.disk_free_bytes = Except.ok fb)
    (k : Nat) :
    ∀ (rest : List (Bool × ClientState)) (now : Nat),
      (workerRun cfg (List.replicate k (false, c) ++ (true, c) :: rest) now).2 =
        WorkerExit.cleanExit ∧
      (workerRun cfg (List.replicate k (false, c) ++ (true, c) :: rest) now).1.length = k := by
  induction k with
  | zero =>
    intro rest now
    exact ⟨rfl, rfl⟩
  | succ n ih =>
    intro rest now
    rw [List.replicate_succ, List.cons_append]
    have hr := runFullCheck_ok_eq c cfg now lb nb ps fb hb hn hp hd
    obtain ⟨ih1, ih2⟩ := ih rest (now + HEALTHCHECK_INTERVAL)
    constructor
    · simp [workerRun, hr, ih1]
    · simp [workerRun, hr, ih2]

/-- C7: once the shutdown flag is observed set, the worker runs no
further cycle (it exits cleanly having completed exactly the cycles
scheduled before the flag reading), and in the stop protocol no cycle
after the in-flight one ever starts while the stop operation returns
only after the worker has exited (the join). -/
theorem c7_shutdown_no_further_cycles (cfg : Config) (c : ClientState) (lb nb : Nat)
    (ps : List PeerInfo) (fb : Nat)
    (hb : c.eth_blockNumber = Except.ok lb) (hn : c.network_block = Except.ok nb)
    (hp : c.admin_peers = Except.ok ps) (hd : c.disk_free_bytes = Except.ok fb)
    (k i : Nat) (rest : List (Bool × ClientState)) (now : Nat) :
    (workerRun cfg (List.replicate k (false, c) ++ (true, c) :: rest) now).2 =
      WorkerExit.cleanExit ∧
    (workerRun cfg (List.replicate k (false, c) ++ (true, c) :: rest) now).1.length = k ∧
    (∀ j, LifecycleEvent.cycleStart j ∈ stopAndJoinTrace i → j ≤ i) ∧
    (∃ pre, stopAndJoinTrace i =
       pre ++ [LifecycleEvent.workerExited, LifecycleEvent.stopReturned]) := by
  obtain ⟨w1, w2⟩ := workerRun_shutdown cfg c lb nb ps fb hb hn hp hd k rest now
  refine ⟨w1, w2, ?_, ?_⟩
  · intro j hj
    unfold stopAndJoinTrace at hj
    simp [List.mem_append, List.mem_flatMap, List.mem_range] at hj
    rcases hj with h | h <;> omega
  · refine ⟨((List.range i).flatMap fun j =>
        [LifecycleEvent.cycleStart j, LifecycleEvent.cycleEnd j]) ++
        [LifecycleEvent.cycleStart i, LifecycleEvent.flagSet,
         LifecycleEvent.cycleEnd i], ?_⟩
    unfold stopAndJoinTrace
    simp

/-- C7 witness: two pre-shutdown cycles on the healthy state, flag set
during cycle 1. -/
theorem c7_shutdown_no_further_cycles_witness :
    (workerRun cfg0 (List.replicate 2 (false, goodClient) ++ (true, goodClient) :: []) 0).2 =
      WorkerExit.cleanExit ∧
    (workerRun cfg0 (List.replicate 2 (false, goodClient) ++ (true, goodClient) :: []) 0).1.length = 2 ∧
    (∀ j, LifecycleEvent.cycleStart j ∈ stopAndJoinTrace 1 → j ≤ 1) ∧
    (∃ pre, stopAndJoinTrace 1 =
       pre ++ [LifecycleEvent.workerExited, LifecycleEvent.stopReturned]) :=
  c7_shutdown_no_further_cycles cfg0 goodClient 100 110 (peers0 ++ peers0)
    (100 * 2 ^ 30) rfl rfl rfl rfl 2 1 [] 0

/-- C10 counterexample: with the local node ahead by the maximal
margin (`local = 2 ^ 64 - 1`, `network = 0`) the wrapped lag is `1`,
below `MAX_BLOCK_LAG`, and no `block_sync_lag` alert is emitted — so
the lag does not wrap far above the threshold for every `local >
network` input. -/
theorem c10_counterexample :
    (0 : Nat) < 2 ^ 64 - 1 ∧
    usub64 0 (2 ^ 64 - 1) = 1 ∧
    checkBlockSync aheadClient =
      .ok ({ localBlock := 2 ^ 64 - 1, networkBlock := 0 }, []) := by
  exact ⟨by norm_num, by decide, rfl⟩

/-- C10 (amended): whenever the local node is ahead of the reference
head (`network < local`) and the excess stays below
`2 ^ 64 - MAX_BLOCK_LAG`, the uint64 subtraction wraps to
`2 ^ 64 - (local - network)`, which exceeds `MAX_BLOCK_LAG`; the
`block_diff` metric records the wrapped value and a `block_sync_lag`
Warning alert is emitted although the node is not behind. -/
theorem c10_wrapped_lag (c : ClientState) (cfg : Config) (now lb nb : Nat)
    (ps : List PeerInfo) (fb : Nat)
    (hb : c.eth_blockNumber = Except.ok lb) (hn : c.network_block = Except.ok nb)
    (hp : c.admin_peers = Except.ok ps) (hd : c.disk_free_bytes = Except.ok fb)
    (hlt : nb < lb) (hub : lb < UINT64) (hgap : lb - nb < UINT64 - MAX_BLOCK_LAG) :
    usub64 nb lb = UINT64 - (lb - nb) ∧
    usub64 nb lb > MAX_BLOCK_LAG ∧
    ∃ r as, runFullCheck c cfg now = .ok (r, as) ∧
      r.metrics.lookup "block_diff" = some ((UINT64 - (lb - nb) : Nat) : ℚ) ∧
      { type := "block_sync_lag", severity := AlertSeverity.Warning,
        details := [("local", (lb : ℚ)), ("network", (nb : ℚ))] } ∈ as := by
  have hUB : nb < UINT64 := lt_trans hlt hub
  have e1 : usub64 nb lb = UINT64 - (lb - nb) := by
    unfold usub64
    rw [Nat.mod_eq_of_lt hUB, Nat.mod_eq_of_lt hub, Nat.mod_eq_of_lt (by omega)]
    omega
  have e2 : usub64 nb lb > MAX_BLOCK_LAG := by
    rw [e1]
    omega
  refine ⟨e1, e2, _, _, runFullCheck_ok_eq c cfg now lb nb ps fb hb hn hp hd, ?_, ?_⟩
  · rw [show List.lookup "block_diff"
        [("block_diff", (usub64 nb lb : ℚ)),
         ("active_peers", (activePeerCount ps : ℚ)),
         ("rpc_errors", ((checkRpcAvailability c).error_count : ℚ)),
         ("disk_free_gb", diskFreeGb fb)] =
        some ((usub64 nb lb : ℚ)) from rfl, e1]
  · apply List.mem_append_left
    apply List.mem_append_left
    unfold blockSyncAlerts
    rw [if_pos e2]
    exact List.mem_singleton.mpr rfl

/-- C10 witness: the amended theorem with the local node one block
ahead: the wrapped lag is `2 ^ 64 - 1` and the spurious alert fires. -/
theorem c10_wrapped_lag_witness :
    usub64 100 101 = UINT64 - (101 - 100) ∧
    usub64 100 101 > MAX_BLOCK_LAG ∧
    ∃ r as, runFullCheck slightlyAheadClient cfg0 0 = .ok (r, as) ∧
      r.metrics.lookup "block_diff" = some ((UINT64 - (101 - 100) : Nat) : ℚ) ∧
      { type := "block_sync_lag", severity := AlertSeverity.Warning,
        details := [("local", (101 : ℚ)), ("network", (100 : ℚ))] } ∈ as :=
  c10_wrapped_lag slightlyAheadClient cfg0 0 101 100 (peers0 ++ peers0)
    (100 * 2 ^ 30) rfl rfl rfl rfl (by norm_num) (by decide) (by decide)

end DeFinetly
